import Mathlib

/-!
# Testers of the template-expression evaluator (`src/src/testers.cpp`)

A shallow embedding of the tester registry, of `CreateTester`, and of the three
tester families `ValueTester`, `Comparator` and `StartsWith`, followed by the
properties of the embedding.

Conventions of the embedding:

* a C++ function whose execution can reach undefined behaviour (dereferencing
  the `end()` iterator of the registry, calling through a null `shared_ptr`)
  returns an `Outcome`;
* the declarations that live in headers outside `testers.cpp`
  (`InternalValue`, `CallParams`, `BinaryExpression::Operation`, `FunctionBase`)
  are modelled from the specification and say so in their doc comments;
* the functions of other translation units that `testers.cpp` only calls
  (`helpers::ParseCallParams`, `AsString`, `ConvertToBool`,
  `Apply2<visitors::BinaryMathOperation>`, the inherited call operators of
  `visitors::BaseVisitor`) are fields of `Collaborators`, so every theorem
  holds for every implementation of them.
-/

namespace jinja2

/-! ## Data model -/

/-- A `std::string`: the sequence of its code units. -/
abbrev CppString := List Char

/-- Result of running a piece of C++ whose control flow can reach undefined
behaviour. -/
inductive Outcome (α : Type) where
  | returned (a : α)
  | undefinedBehaviour
  deriving DecidableEq, Repr

/-- A `double`, kept as its IEEE-754 bit pattern; no tester looks inside. -/
structure Double where
  bits : Nat
  deriving DecidableEq, Repr

/-- Modelled from the spec: `ListAdapter` (declared outside `testers.cpp`), an
opaque handle on a list value. -/
structure ListAdapter where
  handle : Nat
  deriving DecidableEq, Repr

/-- Modelled from the spec: `MapAdapter` (declared outside `testers.cpp`), an
opaque handle on a map value. -/
structure MapAdapter where
  handle : Nat
  deriving DecidableEq, Repr

/-- Modelled from the spec: `Callable` (declared outside `testers.cpp`), an
opaque handle on a callable value. -/
structure Callable where
  handle : Nat
  deriving DecidableEq, Repr

/-- Modelled from the spec: `InternalValue`, whose variant declaration is not in
`testers.cpp`. Section 3 of the specification gives it as a closed tagged union
over Empty, Boolean, String, Integer, Double, List, Map, KeyValuePair and
Callable; the payload types are the parameter types of the call operators of
`ValueKindGetter`. -/
inductive InternalValue where
  | EmptyValue
  | bool (b : Bool)
  | string (s : CppString)
  | int64 (i : Int)
  | double (d : Double)
  | ListAdapter (l : ListAdapter)
  | MapAdapter (m : MapAdapter)
  | KeyValuePair (key : CppString) (value : InternalValue)
  | Callable (c : Callable)
  deriving DecidableEq, Repr

/-- The enumeration `ValueKind` of `testers.cpp`, enumerators in source order. -/
inductive ValueKind where
  | Empty
  | Boolean
  | String
  | Integer
  | Double
  | List
  | Map
  | KVPair
  | Callable
  deriving DecidableEq, Repr

/-- Modelled from the spec: `BinaryExpression::Operation` (declared outside
`testers.cpp`), restricted to the six comparison operators the registry binds. -/
inductive Operation where
  | LogicalEq
  | LogicalNe
  | LogicalGt
  | LogicalLt
  | LogicalGe
  | LogicalLe
  deriving DecidableEq, Repr

/-- The enumeration `ValueTester::Mode`, in the order of the constructor's
switch. -/
inductive Mode where
  | IsDefinedMode
  | IsEvenMode
  | IsInMode
  | IsIterableMode
  | IsLowerMode
  | IsMappingMode
  | IsNumberMode
  | IsOddMode
  | IsSequenceMode
  | IsStringMode
  | IsUndefinedMode
  | IsUpperMode
  deriving DecidableEq, Repr

/-- Modelled from the spec: an expression evaluator bound to an argument; the
testers only call its `Evaluate` on the render context, which they never
inspect. -/
structure ExpressionEvaluator (Ctx : Type) where
  Evaluate : Ctx → InternalValue

/-- A `std::shared_ptr` to an expression evaluator; `none` is the null pointer. -/
abbrev ExpressionEvaluatorPtr (Ctx : Type) := Option (ExpressionEvaluator Ctx)

/-- Modelled from the spec: `CallParams` (alias `TesterParams`), the raw ordered
and named argument list of the call site (section 6). -/
structure CallParams (Ctx : Type) where
  kwParams : List (String × ExpressionEvaluator Ctx)
  posParams : List (ExpressionEvaluator Ctx)

/-- Modelled from the spec: one entry of a declared parameter map, a name and
its "required" flag, as in the braces `"str", true` of the source. -/
structure ArgumentInfo where
  name : String
  mandatory : Bool
  deriving DecidableEq, Repr

/-- Modelled from the spec: `ParsedArguments`, the mapping from parameter name to
bound sub-evaluator returned by the binding helper; indexing an unbound name
gives the null pointer, as `operator[]` of a map of `shared_ptr` does. -/
abbrev ParsedArguments (Ctx : Type) := String → ExpressionEvaluatorPtr Ctx

/-- The functions of other translation units that `testers.cpp` calls. -/
structure Collaborators (Ctx : Type) where
  /-- The helper `helpers::ParseCallParams(argsInfo, params, isSucceeded)`: the
  bound arguments and the value left in the `bool&` out-parameter. -/
  ParseCallParams : List ArgumentInfo → CallParams Ctx → ParsedArguments Ctx × Bool
  /-- The conversion `AsString(value)`. -/
  AsString : InternalValue → CppString
  /-- The application `Apply2<visitors::BinaryMathOperation>(left, right, op)`. -/
  BinaryMathOperation : InternalValue → InternalValue → Operation → InternalValue
  /-- The conversion `ConvertToBool(value)`. -/
  ConvertToBool : InternalValue → Bool
  /-- The call operators `ValueKindGetter` inherits through
  `using visitors::BaseVisitor<ValueKind>::operator ()`. -/
  BaseVisitor : InternalValue → ValueKind
  /-- The value `FunctionBase::GetArgumentValue` yields for an unbound name. -/
  defVal : InternalValue

/-! ## The tester objects -/

/-- The class `testers::ValueTester`: its only member is the mode. -/
structure ValueTester where
  m_mode : Mode
  deriving DecidableEq, Repr

/-- The class `testers::Comparator`: the operator member, and the bound
arguments kept by its base class `FunctionBase`. -/
structure Comparator (Ctx : Type) where
  m_args : ParsedArguments Ctx
  m_op : Operation

/-- The class `testers::StartsWith`: the evaluator of the argument `str`. -/
structure StartsWith (Ctx : Type) where
  m_stringEval : ExpressionEvaluatorPtr Ctx

/-- An object behind the interface `IsExpression::ITester`: one of the three
classes defined in `testers.cpp`. -/
inductive Tester (Ctx : Type) where
  | valueTester (t : ValueTester)
  | startsWith (t : StartsWith Ctx)
  | comparator (t : Comparator Ctx)

/-- The alias `TesterPtr`, a `std::shared_ptr` to a tester; `none` is the null
pointer. -/
abbrev TesterPtr (Ctx : Type) := Option (Tester Ctx)

/-- The alias `IsExpression::TesterFactoryFn`. -/
abbrev TesterFactoryFn (Ctx : Type) := CallParams Ctx → TesterPtr Ctx

/-! ## `FunctionBase` -/

/-- Modelled from the spec: `FunctionBase::ParseParams`, defined outside
`testers.cpp`. It hands the declared parameter map and the raw parameters to
the binding helper (section 6) and returns the mapping to keep in `m_args`
together with the helper's success flag. -/
def FunctionBase.ParseParams {Ctx : Type} (E : Collaborators Ctx)
    (argsInfo : List ArgumentInfo) (params : CallParams Ctx) :
    ParsedArguments Ctx × Bool :=
  E.ParseCallParams argsInfo params

/-- Modelled from the spec: `FunctionBase::GetArgumentValue`, defined outside
`testers.cpp`. It resolves an argument "by evaluating its bound expression in
context" (section 4.3); for a name with no bound expression it yields the
collaborator's `defVal`. -/
def FunctionBase.GetArgumentValue {Ctx : Type} (E : Collaborators Ctx)
    (m_args : ParsedArguments Ctx) (argName : String) (context : Ctx) :
    InternalValue :=
  match m_args argName with
  | some argExpr => argExpr.Evaluate context
  | none => E.defVal

/-! ## `std::string::find` -/

/-- The constant `std::string::npos`, the largest `size_t`. -/
def npos : Nat := 2 ^ 64 - 1

/-- Whether the characters of `str` equal, one by one, the characters of `s`
from its first position on, with `str` fitting inside `s`. -/
def matchesAt : CppString → CppString → Bool
  | _, [] => true
  | [], _ :: _ => false
  | c :: s, d :: str => c == d && matchesAt s str

/-- The search of `std::string::find`: `s` is what is left of the searched
string from offset `pos` on; the result is the lowest offset at which `str`
occurs, or `npos`. -/
def findFrom (str : CppString) : CppString → Nat → Nat
  | [], pos => if matchesAt [] str then pos else npos
  | c :: rest, pos =>
    if matchesAt (c :: rest) str then pos else findFrom str rest (pos + 1)

/-- The call `s.find(str)` of `std::string`, searching from offset zero. -/
def string_find (s str : CppString) : Nat :=
  findFrom str s 0

/-! ## Constructors and `Test` methods -/

/-- The constructor `Comparator::Comparator(params, op)`: stores `op`, calls
`ParseParams` on the single required parameter `b` and drops its result. -/
def Comparator.ctor {Ctx : Type} (E : Collaborators Ctx) (params : CallParams Ctx)
    (op : Operation) : Comparator Ctx :=
  let parsed := FunctionBase.ParseParams E [⟨"b", true⟩] params
  { m_args := parsed.1, m_op := op }

/-- The method `Comparator::Test`. -/
def Comparator.Test {Ctx : Type} (E : Collaborators Ctx) (self : Comparator Ctx)
    (baseVal : InternalValue) (context : Ctx) : Bool :=
  let b := FunctionBase.GetArgumentValue E self.m_args "b" context
  let cmpRes := E.BinaryMathOperation baseVal b self.m_op
  E.ConvertToBool cmpRes

/-- The constructor `StartsWith::StartsWith(params)`: the flag `parsed` is
passed to the binding helper and never read afterwards; `m_stringEval` is what
the returned mapping holds under `str`. -/
def StartsWith.ctor {Ctx : Type} (E : Collaborators Ctx) (params : CallParams Ctx) :
    StartsWith Ctx :=
  let args := (E.ParseCallParams [⟨"str", true⟩] params).1
  { m_stringEval := args "str" }

/-- The method `StartsWith::Test`; calling `Evaluate` through a null
`m_stringEval` is undefined behaviour. -/
def StartsWith.Test {Ctx : Type} (E : Collaborators Ctx) (self : StartsWith Ctx)
    (baseVal : InternalValue) (context : Ctx) : Outcome Bool :=
  match self.m_stringEval with
  | none => Outcome.undefinedBehaviour
  | some stringEval =>
    let val := stringEval.Evaluate context
    let baseStr := E.AsString baseVal
    let str := E.AsString val
    Outcome.returned (string_find baseStr str == 0)

/-- The constructor `ValueTester::ValueTester(params, mode)`: stores the mode;
every case of its switch is empty and `params` is not read. -/
def ValueTester.ctor {Ctx : Type} (_params : CallParams Ctx) (mode : Mode) : ValueTester :=
  match mode with
  | Mode.IsDefinedMode => { m_mode := mode }
  | Mode.IsEvenMode => { m_mode := mode }
  | Mode.IsInMode => { m_mode := mode }
  | Mode.IsIterableMode => { m_mode := mode }
  | Mode.IsLowerMode => { m_mode := mode }
  | Mode.IsMappingMode => { m_mode := mode }
  | Mode.IsNumberMode => { m_mode := mode }
  | Mode.IsOddMode => { m_mode := mode }
  | Mode.IsSequenceMode => { m_mode := mode }
  | Mode.IsStringMode => { m_mode := mode }
  | Mode.IsUndefinedMode => { m_mode := mode }
  | Mode.IsUpperMode => { m_mode := mode }

/-- The call operators written in the body of `ValueKindGetter`, one per
parameter type; `none` where the struct declares no operator for the variant. -/
def ValueKindGetter.declared : InternalValue → Option ValueKind
  | InternalValue.EmptyValue => some ValueKind.Empty
  | InternalValue.bool _ => some ValueKind.Boolean
  | InternalValue.string _ => some ValueKind.String
  | InternalValue.int64 _ => some ValueKind.Integer
  | InternalValue.double _ => some ValueKind.Double
  | InternalValue.ListAdapter _ => some ValueKind.List
  | InternalValue.MapAdapter _ => some ValueKind.Map
  | InternalValue.KeyValuePair _ _ => some ValueKind.KVPair
  | InternalValue.Callable _ => none

/-- The visitation `Apply<ValueKindGetter>(value)`: the operator declared for the
variant when there is one, otherwise the operator inherited from
`visitors::BaseVisitor<ValueKind>`. -/
def ValueKindGetter.apply {Ctx : Type} (E : Collaborators Ctx) (value : InternalValue) :
    ValueKind :=
  match ValueKindGetter.declared value with
  | some kind => kind
  | none => E.BaseVisitor value

/-- The method `ValueTester::Test`. -/
def ValueTester.Test {Ctx : Type} (E : Collaborators Ctx) (self : ValueTester)
    (baseVal : InternalValue) (_context : Ctx) : Bool :=
  let result := false
  let valKind := ValueKindGetter.apply E baseVal
  match self.m_mode with
  | Mode.IsIterableMode => valKind == ValueKind.List || valKind == ValueKind.Map
  | Mode.IsMappingMode => valKind == ValueKind.KVPair || valKind == ValueKind.Map
  | Mode.IsNumberMode => valKind == ValueKind.Integer || valKind == ValueKind.Double
  | Mode.IsSequenceMode => valKind == ValueKind.List
  | Mode.IsStringMode => valKind == ValueKind.String
  | Mode.IsDefinedMode => valKind != ValueKind.Empty
  | Mode.IsUndefinedMode => valKind == ValueKind.Empty
  | Mode.IsInMode => result
  | Mode.IsEvenMode => result
  | Mode.IsOddMode => result
  | Mode.IsLowerMode => result
  | Mode.IsUpperMode => result

/-- The virtual call `tester->Test(baseVal, context)`. -/
def Tester.Test {Ctx : Type} (E : Collaborators Ctx) (self : Tester Ctx)
    (baseVal : InternalValue) (context : Ctx) : Outcome Bool :=
  match self with
  | Tester.valueTester t => Outcome.returned (t.Test E baseVal context)
  | Tester.startsWith t => t.Test E baseVal context
  | Tester.comparator t => Outcome.returned (t.Test E baseVal context)

/-! ## The registry and `CreateTester` -/

/-- The factory `TesterFactory<testers::StartsWith>::Create`. -/
def TesterFactory.StartsWith.Create {Ctx : Type} (E : Collaborators Ctx) :
    TesterFactoryFn Ctx :=
  fun params => some (Tester.startsWith (StartsWith.ctor E params))

/-- The factory `TesterFactory<testers::ValueTester>::MakeCreator(mode)`: a
closure that captures the mode. -/
def TesterFactory.ValueTester.MakeCreator {Ctx : Type} (mode : Mode) :
    TesterFactoryFn Ctx :=
  fun params => some (Tester.valueTester (ValueTester.ctor params mode))

/-- The factory `TesterFactory<testers::Comparator>::MakeCreator(op)`: a closure
that captures the operator. -/
def TesterFactory.Comparator.MakeCreator {Ctx : Type} (E : Collaborators Ctx)
    (op : Operation) : TesterFactoryFn Ctx :=
  fun params => some (Tester.comparator (Comparator.ctor E params op))

/-- The initialiser list of the map `s_testers`, entries in source order. -/
def s_testers {Ctx : Type} (E : Collaborators Ctx) : List (String × TesterFactoryFn Ctx) :=
  [ ("defined", TesterFactory.ValueTester.MakeCreator Mode.IsDefinedMode),
    ("startsWith", TesterFactory.StartsWith.Create E),
    ("eq", TesterFactory.Comparator.MakeCreator E Operation.LogicalEq),
    ("==", TesterFactory.Comparator.MakeCreator E Operation.LogicalEq),
    ("equalto", TesterFactory.Comparator.MakeCreator E Operation.LogicalEq),
    ("even", TesterFactory.ValueTester.MakeCreator Mode.IsEvenMode),
    ("ge", TesterFactory.Comparator.MakeCreator E Operation.LogicalGe),
    (">=", TesterFactory.Comparator.MakeCreator E Operation.LogicalGe),
    ("gt", TesterFactory.Comparator.MakeCreator E Operation.LogicalGt),
    (">", TesterFactory.Comparator.MakeCreator E Operation.LogicalGt),
    ("greaterthan", TesterFactory.Comparator.MakeCreator E Operation.LogicalGt),
    ("in", TesterFactory.ValueTester.MakeCreator Mode.IsInMode),
    ("iterable", TesterFactory.ValueTester.MakeCreator Mode.IsIterableMode),
    ("le", TesterFactory.Comparator.MakeCreator E Operation.LogicalLe),
    ("<=", TesterFactory.Comparator.MakeCreator E Operation.LogicalLe),
    ("lower", TesterFactory.ValueTester.MakeCreator Mode.IsLowerMode),
    ("lt", TesterFactory.Comparator.MakeCreator E Operation.LogicalLt),
    ("<", TesterFactory.Comparator.MakeCreator E Operation.LogicalLt),
    ("lessthan", TesterFactory.Comparator.MakeCreator E Operation.LogicalLt),
    ("mapping", TesterFactory.ValueTester.MakeCreator Mode.IsMappingMode),
    ("ne", TesterFactory.Comparator.MakeCreator E Operation.LogicalNe),
    ("!=", TesterFactory.Comparator.MakeCreator E Operation.LogicalNe),
    ("number", TesterFactory.ValueTester.MakeCreator Mode.IsNumberMode),
    ("odd", TesterFactory.ValueTester.MakeCreator Mode.IsOddMode),
    ("sequence", TesterFactory.ValueTester.MakeCreator Mode.IsSequenceMode),
    ("string", TesterFactory.ValueTester.MakeCreator Mode.IsStringMode),
    ("undefined", TesterFactory.ValueTester.MakeCreator Mode.IsUndefinedMode),
    ("upper", TesterFactory.ValueTester.MakeCreator Mode.IsUpperMode) ]

/-- The lookup `s_testers.find(testerName)`: the factory stored under the name,
`none` for the iterator `s_testers.end()`. A map built from an initialiser list
keeps the first entry of each key. -/
def s_testers_find {Ctx : Type} (E : Collaborators Ctx) (testerName : String) :
    Option (TesterFactoryFn Ctx) :=
  (s_testers E).lookup testerName

/-- The function `CreateTester`. For a name that is not in the map the statement
under the `if` builds a null `TesterPtr` and discards it, there is no `return`,
and control goes on to `p->second(...)` with `p` the `end()` iterator, which is
undefined behaviour. -/
def CreateTester {Ctx : Type} (E : Collaborators Ctx) (testerName : String)
    (params : CallParams Ctx) : Outcome (TesterPtr Ctx) :=
  match s_testers_find E testerName with
  | none => Outcome.undefinedBehaviour
  | some factory => Outcome.returned (factory params)

/-- The use a caller makes of the two entry points of section 6: `CreateTester`
on the name and parameters, then `Test` on the tester it returned. Calling
`Test` through a null `TesterPtr` is undefined behaviour. -/
def createAndTest {Ctx : Type} (E : Collaborators Ctx) (testerName : String)
    (params : CallParams Ctx) (baseVal : InternalValue) (context : Ctx) : Outcome Bool :=
  match CreateTester E testerName params with
  | Outcome.undefinedBehaviour => Outcome.undefinedBehaviour
  | Outcome.returned none => Outcome.undefinedBehaviour
  | Outcome.returned (some tester) => tester.Test E baseVal context

/-! ## A reference implementation of the collaborators

Used to run the end-to-end scenarios of section 8 on the embedding. -/

/-- Modelled from the spec: the binding of one declared parameter, by its name
among the named arguments, otherwise by its position among the positional ones. -/
def refBindArgument {Ctx : Type} (params : CallParams Ctx) (index : Nat)
    (info : ArgumentInfo) : ExpressionEvaluatorPtr Ctx :=
  match params.kwParams.lookup info.name with
  | some e => some e
  | none => params.posParams.get? index

/-- Modelled from the spec: the binding of the declared parameters from position
`index` on; the flag is false when a required parameter stays unbound
("binding fails if any required parameter is absent", section 4.2). -/
def refBindArguments {Ctx : Type} (params : CallParams Ctx) :
    Nat → List ArgumentInfo → ParsedArguments Ctx × Bool
  | _, [] => (fun _ => none, true)
  | index, info :: rest =>
    let bound := refBindArgument params index info
    let others := refBindArguments params (index + 1) rest
    (fun name => if name = info.name then bound else others.1 name,
      (bound.isSome || !info.mandatory) && others.2)

/-- Modelled from the spec: `helpers::ParseCallParams`, which "given a declared
name-to-required map and the raw params, returns a mapping from name to bound
sub-evaluator, or signals failure" (section 6). -/
def refParseCallParams {Ctx : Type} (argsInfo : List ArgumentInfo)
    (params : CallParams Ctx) : ParsedArguments Ctx × Bool :=
  refBindArguments params 0 argsInfo

/-- Modelled from the spec: `AsString` on the kinds whose text form section 4.4
fixes: a string is itself, a boolean is its literal, Empty is the empty string.
The other kinds, whose text form the specification leaves to the value model,
are given the empty string here. -/
def refAsString : InternalValue → CppString
  | InternalValue.string s => s
  | InternalValue.bool true => "true".toList
  | InternalValue.bool false => "false".toList
  | _ => []

/-- Modelled from the spec: the six comparison operators on two integers,
"numeric values compare numerically" (section 4.3). -/
def refCompareInt (op : Operation) (a b : Int) : Bool :=
  match op with
  | Operation.LogicalEq => a == b
  | Operation.LogicalNe => a != b
  | Operation.LogicalGt => decide (a > b)
  | Operation.LogicalLt => decide (a < b)
  | Operation.LogicalGe => decide (a ≥ b)
  | Operation.LogicalLe => decide (a ≤ b)

/-- Modelled from the spec: `Apply2<visitors::BinaryMathOperation>` on two
integers; every other pair of kinds, which the specification leaves to the
binary-operation evaluator, is given the Empty value here. -/
def refBinaryMathOperation (left right : InternalValue) (op : Operation) : InternalValue :=
  match left, right with
  | InternalValue.int64 a, InternalValue.int64 b => InternalValue.bool (refCompareInt op a b)
  | _, _ => InternalValue.EmptyValue

/-- Modelled from the spec: `ConvertToBool`, the to-bool coercion; a boolean is
itself and an integer is true when it is not zero; the other kinds, left to the
value model, are given false here. -/
def refConvertToBool : InternalValue → Bool
  | InternalValue.bool b => b
  | InternalValue.int64 i => i != 0
  | _ => false

/-- Modelled from the spec: the collaborators of the end-to-end scenarios. The
specification fixes neither the result of the inherited visitor operators nor
the value of an unbound argument; they are set to the first enumerator and to
the Empty value here, and no scenario depends on them. -/
def refCollaborators (Ctx : Type) : Collaborators Ctx where
  ParseCallParams := refParseCallParams
  AsString := refAsString
  BinaryMathOperation := refBinaryMathOperation
  ConvertToBool := refConvertToBool
  BaseVisitor := fun _ => ValueKind.Empty
  defVal := InternalValue.EmptyValue

/-- An argument expression that evaluates to the same value in every context. -/
def constantExpr {Ctx : Type} (v : InternalValue) : ExpressionEvaluator Ctx where
  Evaluate := fun _ => v

/-- The parameter list of a call site with the given positional arguments and no
named argument. -/
def positionalParams {Ctx : Type} (args : List (ExpressionEvaluator Ctx)) : CallParams Ctx where
  kwParams := []
  posParams := args

/-! ## Auxiliary lemmas -/

/-- A search that starts at a positive offset never answers offset zero. -/
theorem findFrom_pos (str s : CppString) (pos : Nat) (h : 0 < pos) :
    0 < findFrom str s pos := by
  induction s generalizing pos with
  | nil => unfold findFrom; split <;> simp [npos, h]
  | cons c rest ih =>
    unfold findFrom
    split
    · exact h
    · exact ih (pos + 1) (Nat.succ_pos pos)

/-- The character-by-character comparison succeeds exactly when `str` is the
initial segment of `s` of its own length. -/
theorem matchesAt_iff_take (s str : CppString) :
    matchesAt s str = true ↔ str.length ≤ s.length ∧ s.take str.length = str := by
  induction str generalizing s with
  | nil => simp [matchesAt]
  | cons d str ih =>
    cases s with
    | nil => simp [matchesAt]
    | cons c s =>
      simp [matchesAt, ih]
      constructor
      · rintro ⟨h1, h2, h3⟩; exact ⟨h2, h1, h3⟩
      · rintro ⟨h1, h2, h3⟩; exact ⟨h2, h1, h3⟩

/-- The call `s.find(str)` answers zero exactly when the comparison at offset
zero succeeds. -/
theorem string_find_eq_zero_iff (s str : CppString) :
    string_find s str = 0 ↔ matchesAt s str = true := by
  unfold string_find
  cases s with
  | nil =>
    unfold findFrom
    split <;> simp_all [npos]
  | cons c rest =>
    unfold findFrom
    split
    · simp_all
    · have := findFrom_pos str rest (0 + 1) (by decide)
      simp_all
      omega

/-- The test `baseStr.find(str) == 0` as a decision of the prefix relation. -/
theorem string_find_beq_zero (s str : CppString) :
    (string_find s str == 0) = decide (str.length ≤ s.length ∧ s.take str.length = str) := by
  rw [Bool.eq_iff_iff]
  simp only [beq_iff_eq, decide_eq_true_eq]
  rw [string_find_eq_zero_iff, matchesAt_iff_take]

/-- A tester made by the `ValueTester` constructor tests as the object holding
the mode does: the constructor does nothing but store the mode. -/
theorem ValueTester_ctor_eq {Ctx : Type} (params : CallParams Ctx) (mode : Mode) :
    ValueTester.ctor params mode = { m_mode := mode } := by
  cases mode <;> rfl

/-- A key is found by `List.lookup` exactly when it is among the keys. -/
theorem lookup_isSome_iff_mem_keys {β : Type} (l : List (String × β)) (k : String) :
    (l.lookup k).isSome = true ↔ k ∈ l.map Prod.fst := by
  rw [List.lookup_isSome_iff]
  simp only [List.mem_map, beq_iff_eq]
  constructor
  · rintro ⟨p, hp, rfl⟩; exact ⟨p, hp, rfl⟩
  · rintro ⟨p, hp, rfl⟩; exact ⟨p, hp, rfl⟩

/-! ## Kind testers -/

/-- Claim C1. For every value `v` with kind `k = Apply<ValueKindGetter>(v)`, the
tester registered as `iterable` returns whether `k` is List or Map, `mapping`
whether `k` is Map or KVPair, `number` whether `k` is Integer or Double,
`sequence` whether `k` is List and `string` whether `k` is String; `number` is
false on the Empty value and true on a double (3.14 here). -/
theorem kind_testers_follow_kind {Ctx : Type} (E : Collaborators Ctx)
    (params : CallParams Ctx) (v : InternalValue) (ctx : Ctx) :
    createAndTest E "iterable" params v ctx
        = Outcome.returned (decide (ValueKindGetter.apply E v = ValueKind.List
            ∨ ValueKindGetter.apply E v = ValueKind.Map))
    ∧ createAndTest E "mapping" params v ctx
        = Outcome.returned (decide (ValueKindGetter.apply E v = ValueKind.Map
            ∨ ValueKindGetter.apply E v = ValueKind.KVPair))
    ∧ createAndTest E "number" params v ctx
        = Outcome.returned (decide (ValueKindGetter.apply E v = ValueKind.Integer
            ∨ ValueKindGetter.apply E v = ValueKind.Double))
    ∧ createAndTest E "sequence" params v ctx
        = Outcome.returned (decide (ValueKindGetter.apply E v = ValueKind.List))
    ∧ createAndTest E "string" params v ctx
        = Outcome.returned (decide (ValueKindGetter.apply E v = ValueKind.String))
    ∧ createAndTest E "number" params InternalValue.EmptyValue ctx = Outcome.returned false
    ∧ createAndTest E "number" params (InternalValue.double ⟨0x40091EB851EB851F⟩) ctx
        = Outcome.returned true := by
  refine ⟨?_, ?_, ?_, ?_, ?_, rfl, rfl⟩
  · show Outcome.returned (ValueTester.Test E { m_mode := Mode.IsIterableMode } v ctx) = _
    unfold ValueTester.Test
    generalize ValueKindGetter.apply E v = k
    cases k <;> rfl
  · show Outcome.returned (ValueTester.Test E { m_mode := Mode.IsMappingMode } v ctx) = _
    unfold ValueTester.Test
    generalize ValueKindGetter.apply E v = k
    cases k <;> rfl
  · show Outcome.returned (ValueTester.Test E { m_mode := Mode.IsNumberMode } v ctx) = _
    unfold ValueTester.Test
    generalize ValueKindGetter.apply E v = k
    cases k <;> rfl
  · show Outcome.returned (ValueTester.Test E { m_mode := Mode.IsSequenceMode } v ctx) = _
    unfold ValueTester.Test
    generalize ValueKindGetter.apply E v = k
    cases k <;> rfl
  · show Outcome.returned (ValueTester.Test E { m_mode := Mode.IsStringMode } v ctx) = _
    unfold ValueTester.Test
    generalize ValueKindGetter.apply E v = k
    cases k <;> rfl

/-- Claim C2. For every value `v`, the tester registered as `defined` returns
whether the kind of `v` is not Empty and the tester registered as `undefined`
returns whether it is Empty; on the Empty value `defined` returns false and
`undefined` returns true. -/
theorem defined_undefined_follow_kind {Ctx : Type} (E : Collaborators Ctx)
    (params : CallParams Ctx) (v : InternalValue) (ctx : Ctx) :
    createAndTest E "defined" params v ctx
        = Outcome.returned (decide (ValueKindGetter.apply E v ≠ ValueKind.Empty))
    ∧ createAndTest E "undefined" params v ctx
        = Outcome.returned (decide (ValueKindGetter.apply E v = ValueKind.Empty))
    ∧ createAndTest E "defined" params InternalValue.EmptyValue ctx = Outcome.returned false
    ∧ createAndTest E "undefined" params InternalValue.EmptyValue ctx
        = Outcome.returned true := by
  refine ⟨?_, ?_, rfl, rfl⟩
  · show Outcome.returned (ValueTester.Test E { m_mode := Mode.IsDefinedMode } v ctx) = _
    unfold ValueTester.Test
    generalize ValueKindGetter.apply E v = k
    cases k <;> rfl
  · show Outcome.returned (ValueTester.Test E { m_mode := Mode.IsUndefinedMode } v ctx) = _
    unfold ValueTester.Test
    generalize ValueKindGetter.apply E v = k
    cases k <;> rfl

/-! ## The prefix tester -/

/-- Claim C3. When the binding helper binds the argument `str` to the
expression `e`, the tester registered as `startsWith` returns, on the base
value `base` in the context `ctx`, whether the string form `P` of the value of
`e` is a prefix of the string form `S` of `base`, that is whether
`len(P) ≤ len(S)` and `S[0:len(P)] = P`. -/
theorem startsWith_tests_leading_segment {Ctx : Type} (E : Collaborators Ctx)
    (params : CallParams Ctx) (e : ExpressionEvaluator Ctx)
    (base : InternalValue) (ctx : Ctx)
    (hstr : (E.ParseCallParams [⟨"str", true⟩] params).1 "str" = some e) :
    createAndTest E "startsWith" params base ctx
      = Outcome.returned (decide
          ((E.AsString (e.Evaluate ctx)).length ≤ (E.AsString base).length
            ∧ (E.AsString base).take (E.AsString (e.Evaluate ctx)).length
                = E.AsString (e.Evaluate ctx))) := by
  show StartsWith.Test E (StartsWith.ctor E params) base ctx = _
  unfold StartsWith.Test StartsWith.ctor
  simp only [hstr]
  rw [string_find_beq_zero]

/-- Claim C3, on the scenario of the specification: with base "hello world" the
needle "hello" gives true and the needle "world", which occurs in the base but
not at offset zero, gives false. -/
theorem startsWith_tests_leading_segment_witness :
    ((refCollaborators Unit).ParseCallParams [⟨"str", true⟩]
        (positionalParams [constantExpr (InternalValue.string "hello".toList)])).1 "str"
      = some (constantExpr (InternalValue.string "hello".toList))
    ∧ createAndTest (refCollaborators Unit) "startsWith"
        (positionalParams [constantExpr (InternalValue.string "hello".toList)])
        (InternalValue.string "hello world".toList) () = Outcome.returned true
    ∧ createAndTest (refCollaborators Unit) "startsWith"
        (positionalParams [constantExpr (InternalValue.string "world".toList)])
        (InternalValue.string "hello world".toList) () = Outcome.returned false :=
  ⟨rfl,
    (startsWith_tests_leading_segment (refCollaborators Unit)
      (positionalParams [constantExpr (InternalValue.string "hello".toList)])
      (constantExpr (InternalValue.string "hello".toList))
      (InternalValue.string "hello world".toList) () rfl).trans (by decide),
    by decide⟩

/-! ## `CreateTester` on a name that is not registered -/

/-- Claim C4. For the name "nosuchtest" the lookup in the registry finds
nothing, and `CreateTester` then neither returns a null tester nor reports a
failure: for every parameter list it runs into the dereference of the `end()`
iterator. -/
theorem CreateTester_unregistered_name {Ctx : Type} (E : Collaborators Ctx)
    (params : CallParams Ctx) :
    s_testers_find E "nosuchtest" = none
    ∧ CreateTester E "nosuchtest" params = Outcome.undefinedBehaviour
    ∧ CreateTester E "nosuchtest" params ≠ Outcome.returned none := by
  have h : CreateTester E "nosuchtest" params = Outcome.undefinedBehaviour := rfl
  refine ⟨rfl, h, ?_⟩
  rw [h]
  intro hne
  cases hne

/-! ## Construction with a missing argument -/

/-- Claim C5. With an empty argument list, for which the binding helper leaves
the required `str` unbound, `CreateTester` on `startsWith` reports no error: the
constructor never reads the flag `parsed`, and the tester object it returns
holds a null evaluator, so that the failure is deferred to `Test`, which calls
`Evaluate` through the null pointer on every base value and context. On the
same argument list `CreateTester` on every comparator name also returns a
tester object, built without reading the result of `ParseParams`, and its
`Test` returns a boolean. -/
theorem construction_without_arguments_defers_failure {Ctx : Type}
    (E : Collaborators Ctx) (base : InternalValue) (ctx : Ctx)
    (hunbound : (E.ParseCallParams [⟨"str", true⟩] (positionalParams [])).1 "str" = none) :
    CreateTester E "startsWith" (positionalParams [])
        = Outcome.returned (some (Tester.startsWith { m_stringEval := none }))
    ∧ createAndTest E "startsWith" (positionalParams []) base ctx
        = Outcome.undefinedBehaviour
    ∧ List.Forall
        (fun entry : String × Operation =>
          CreateTester E entry.1 (positionalParams [])
            = Outcome.returned (some (Tester.comparator
                { m_args := (E.ParseCallParams [⟨"b", true⟩] (positionalParams [])).1,
                  m_op := entry.2 })))
        [ ("eq", Operation.LogicalEq), ("==", Operation.LogicalEq),
          ("equalto", Operation.LogicalEq), ("ge", Operation.LogicalGe),
          (">=", Operation.LogicalGe), ("gt", Operation.LogicalGt),
          (">", Operation.LogicalGt), ("greaterthan", Operation.LogicalGt),
          ("le", Operation.LogicalLe), ("<=", Operation.LogicalLe),
          ("lt", Operation.LogicalLt), ("<", Operation.LogicalLt),
          ("lessthan", Operation.LogicalLt), ("ne", Operation.LogicalNe),
          ("!=", Operation.LogicalNe) ]
    ∧ List.Forall
        (fun name : String =>
          ∃ b : Bool, createAndTest E name (positionalParams []) base ctx = Outcome.returned b)
        ["eq", "==", "equalto", "ge", ">=", "gt", ">", "greaterthan", "le", "<=",
          "lt", "<", "lessthan", "ne", "!="] := by
  have hctor : StartsWith.ctor E (positionalParams []) = { m_stringEval := none } := by
    unfold StartsWith.ctor
    simp only [hunbound]
  have hcreate : CreateTester E "startsWith" (positionalParams [])
      = Outcome.returned (some (Tester.startsWith { m_stringEval := none })) := by
    show Outcome.returned (some (Tester.startsWith (StartsWith.ctor E (positionalParams [])))) = _
    rw [hctor]
  refine ⟨hcreate, ?_, ?_, ?_⟩
  · unfold createAndTest
    rw [hcreate]
    rfl
  · simp only [List.Forall]
    exact ⟨rfl, rfl, rfl, rfl, rfl, rfl, rfl, rfl, rfl, rfl, rfl, rfl, rfl, rfl, rfl⟩
  · simp only [List.Forall]
    exact ⟨⟨_, rfl⟩, ⟨_, rfl⟩, ⟨_, rfl⟩, ⟨_, rfl⟩, ⟨_, rfl⟩, ⟨_, rfl⟩, ⟨_, rfl⟩, ⟨_, rfl⟩,
      ⟨_, rfl⟩, ⟨_, rfl⟩, ⟨_, rfl⟩, ⟨_, rfl⟩, ⟨_, rfl⟩, ⟨_, rfl⟩, ⟨_, rfl⟩⟩

/-- Claim C5, with the reference binding helper: on the empty argument list it
leaves `str` unbound and sets the success flag to false, for `str` and for `b`
alike, and yet `CreateTester` returns a `startsWith` tester, whose `Test` on
the Empty value is undefined behaviour. -/
theorem construction_without_arguments_defers_failure_witness :
    ((refCollaborators Unit).ParseCallParams [⟨"str", true⟩] (positionalParams [])).1 "str"
      = none
    ∧ ((refCollaborators Unit).ParseCallParams [⟨"str", true⟩] (positionalParams [])).2 = false
    ∧ ((refCollaborators Unit).ParseCallParams [⟨"b", true⟩] (positionalParams [])).2 = false
    ∧ CreateTester (refCollaborators Unit) "startsWith" (positionalParams [])
        = Outcome.returned (some (Tester.startsWith { m_stringEval := none }))
    ∧ createAndTest (refCollaborators Unit) "startsWith" (positionalParams [])
        InternalValue.EmptyValue () = Outcome.undefinedBehaviour :=
  ⟨rfl, rfl, rfl,
    (construction_without_arguments_defers_failure (refCollaborators Unit)
      InternalValue.EmptyValue () rfl).1,
    (construction_without_arguments_defers_failure (refCollaborators Unit)
      InternalValue.EmptyValue () rfl).2.1⟩

/-! ## Comparators -/

/-- Claim C6. For every base value, argument list and context, the testers
created under the names of one alias group return the same boolean, and the
names of a group are registered with one and the same factory: the groups are
`eq`, `==`, `equalto`; `ge`, `>=`; `gt`, `>`, `greaterthan`; `le`, `<=`;
`lt`, `<`, `lessthan`; `ne`, `!=`. -/
theorem comparator_aliases_agree {Ctx : Type} (E : Collaborators Ctx)
    (params : CallParams Ctx) (base : InternalValue) (ctx : Ctx) :
    (∃ b : Bool, createAndTest E "eq" params base ctx = Outcome.returned b
        ∧ createAndTest E "==" params base ctx = Outcome.returned b
        ∧ createAndTest E "equalto" params base ctx = Outcome.returned b)
    ∧ (∃ b : Bool, createAndTest E "ge" params base ctx = Outcome.returned b
        ∧ createAndTest E ">=" params base ctx = Outcome.returned b)
    ∧ (∃ b : Bool, createAndTest E "gt" params base ctx = Outcome.returned b
        ∧ createAndTest E ">" params base ctx = Outcome.returned b
        ∧ createAndTest E "greaterthan" params base ctx = Outcome.returned b)
    ∧ (∃ b : Bool, createAndTest E "le" params base ctx = Outcome.returned b
        ∧ createAndTest E "<=" params base ctx = Outcome.returned b)
    ∧ (∃ b : Bool, createAndTest E "lt" params base ctx = Outcome.returned b
        ∧ createAndTest E "<" params base ctx = Outcome.returned b
        ∧ createAndTest E "lessthan" params base ctx = Outcome.returned b)
    ∧ (∃ b : Bool, createAndTest E "ne" params base ctx = Outcome.returned b
        ∧ createAndTest E "!=" params base ctx = Outcome.returned b)
    ∧ s_testers_find E "==" = s_testers_find E "eq"
    ∧ s_testers_find E "equalto" = s_testers_find E "eq"
    ∧ s_testers_find E ">=" = s_testers_find E "ge"
    ∧ s_testers_find E ">" = s_testers_find E "gt"
    ∧ s_testers_find E "greaterthan" = s_testers_find E "gt"
    ∧ s_testers_find E "<=" = s_testers_find E "le"
    ∧ s_testers_find E "<" = s_testers_find E "lt"
    ∧ s_testers_find E "lessthan" = s_testers_find E "lt"
    ∧ s_testers_find E "!=" = s_testers_find E "ne" :=
  ⟨⟨Comparator.Test E (Comparator.ctor E params Operation.LogicalEq) base ctx, rfl, rfl, rfl⟩,
    ⟨Comparator.Test E (Comparator.ctor E params Operation.LogicalGe) base ctx, rfl, rfl⟩,
    ⟨Comparator.Test E (Comparator.ctor E params Operation.LogicalGt) base ctx, rfl, rfl, rfl⟩,
    ⟨Comparator.Test E (Comparator.ctor E params Operation.LogicalLe) base ctx, rfl, rfl⟩,
    ⟨Comparator.Test E (Comparator.ctor E params Operation.LogicalLt) base ctx, rfl, rfl, rfl⟩,
    ⟨Comparator.Test E (Comparator.ctor E params Operation.LogicalNe) base ctx, rfl, rfl⟩,
    rfl, rfl, rfl, rfl, rfl, rfl, rfl, rfl, rfl⟩

/-! ## The classifier -/

/-- Claim C7. The struct `ValueKindGetter` declares no call operator for the
Callable variant: a Callable value is classified by the operator inherited from
the base visitor, whatever that one returns, and no declared operator ever
returns the kind Callable. The eight other variants are classified by a
declared operator as the kind of the same name. -/
theorem ValueKindGetter_declares_no_Callable_case {Ctx : Type} (E : Collaborators Ctx)
    (c : Callable) :
    ValueKindGetter.declared (InternalValue.Callable c) = none
    ∧ ValueKindGetter.apply E (InternalValue.Callable c) = E.BaseVisitor (InternalValue.Callable c)
    ∧ (∀ v : InternalValue, ValueKindGetter.declared v ≠ some ValueKind.Callable)
    ∧ ValueKindGetter.apply E InternalValue.EmptyValue = ValueKind.Empty
    ∧ (∀ b, ValueKindGetter.apply E (InternalValue.bool b) = ValueKind.Boolean)
    ∧ (∀ str, ValueKindGetter.apply E (InternalValue.string str) = ValueKind.String)
    ∧ (∀ i, ValueKindGetter.apply E (InternalValue.int64 i) = ValueKind.Integer)
    ∧ (∀ d, ValueKindGetter.apply E (InternalValue.double d) = ValueKind.Double)
    ∧ (∀ l, ValueKindGetter.apply E (InternalValue.ListAdapter l) = ValueKind.List)
    ∧ (∀ m, ValueKindGetter.apply E (InternalValue.MapAdapter m) = ValueKind.Map)
    ∧ (∀ key value, ValueKindGetter.apply E (InternalValue.KeyValuePair key value)
        = ValueKind.KVPair) := by
  refine ⟨rfl, rfl, ?_, rfl, fun _ => rfl, fun _ => rfl, fun _ => rfl, fun _ => rfl,
    fun _ => rfl, fun _ => rfl, fun _ _ => rfl⟩
  intro v
  cases v <;> simp [ValueKindGetter.declared]

/-! ## The registry -/

/-- Claim C8. The registry holds 28 entries under 28 distinct names, a name is
found in it exactly when it is one of the 12 kind and property names,
`startsWith`, or one of the 15 comparator names, and `CreateTester` builds under
each name the tester it names: the `ValueTester` holding the mode of the same name,
the prefix tester holding what the binding helper bound under `str`, or the
comparator holding the operator the name denotes and what the helper bound for
the declared parameter `b`. -/
theorem registry_contents {Ctx : Type} (E : Collaborators Ctx) :
    (s_testers E).length = 28
    ∧ ((s_testers E).map Prod.fst).Nodup
    ∧ (∀ name : String, (s_testers_find E name).isSome = true ↔ name ∈
        ["defined", "even", "in", "iterable", "lower", "mapping", "number", "odd",
        "sequence", "string", "undefined", "upper", "startsWith", "eq", "==", "equalto",
        "ge", ">=", "gt", ">", "greaterthan", "le", "<=", "lt", "<", "lessthan", "ne", "!="])
    ∧ (∀ params : CallParams Ctx,
        CreateTester E "defined" params
          = Outcome.returned (some (Tester.valueTester { m_mode := Mode.IsDefinedMode }))
        ∧ CreateTester E "even" params
          = Outcome.returned (some (Tester.valueTester { m_mode := Mode.IsEvenMode }))
        ∧ CreateTester E "in" params
          = Outcome.returned (some (Tester.valueTester { m_mode := Mode.IsInMode }))
        ∧ CreateTester E "iterable" params
          = Outcome.returned (some (Tester.valueTester { m_mode := Mode.IsIterableMode }))
        ∧ CreateTester E "lower" params
          = Outcome.returned (some (Tester.valueTester { m_mode := Mode.IsLowerMode }))
        ∧ CreateTester E "mapping" params
          = Outcome.returned (some (Tester.valueTester { m_mode := Mode.IsMappingMode }))
        ∧ CreateTester E "number" params
          = Outcome.returned (some (Tester.valueTester { m_mode := Mode.IsNumberMode }))
        ∧ CreateTester E "odd" params
          = Outcome.returned (some (Tester.valueTester { m_mode := Mode.IsOddMode }))
        ∧ CreateTester E "sequence" params
          = Outcome.returned (some (Tester.valueTester { m_mode := Mode.IsSequenceMode }))
        ∧ CreateTester E "string" params
          = Outcome.returned (some (Tester.valueTester { m_mode := Mode.IsStringMode }))
        ∧ CreateTester E "undefined" params
          = Outcome.returned (some (Tester.valueTester { m_mode := Mode.IsUndefinedMode }))
        ∧ CreateTester E "upper" params
          = Outcome.returned (some (Tester.valueTester { m_mode := Mode.IsUpperMode }))
        ∧ CreateTester E "startsWith" params
          = Outcome.returned (some (Tester.startsWith
              { m_stringEval := (E.ParseCallParams [⟨"str", true⟩] params).1 "str" }))
        ∧ CreateTester E "eq" params
          = Outcome.returned (some (Tester.comparator
              { m_args := (E.ParseCallParams [⟨"b", true⟩] params).1, m_op := Operation.LogicalEq }))
        ∧ CreateTester E "==" params
          = Outcome.returned (some (Tester.comparator
              { m_args := (E.ParseCallParams [⟨"b", true⟩] params).1, m_op := Operation.LogicalEq }))
        ∧ CreateTester E "equalto" params
          = Outcome.returned (some (Tester.comparator
              { m_args := (E.ParseCallParams [⟨"b", true⟩] params).1, m_op := Operation.LogicalEq }))
        ∧ CreateTester E "ge" params
          = Outcome.returned (some (Tester.comparator
              { m_args := (E.ParseCallParams [⟨"b", true⟩] params).1, m_op := Operation.LogicalGe }))
        ∧ CreateTester E ">=" params
          = Outcome.returned (some (Tester.comparator
              { m_args := (E.ParseCallParams [⟨"b", true⟩] params).1, m_op := Operation.LogicalGe }))
        ∧ CreateTester E "gt" params
          = Outcome.returned (some (Tester.comparator
              { m_args := (E.ParseCallParams [⟨"b", true⟩] params).1, m_op := Operation.LogicalGt }))
        ∧ CreateTester E ">" params
          = Outcome.returned (some (Tester.comparator
              { m_args := (E.ParseCallParams [⟨"b", true⟩] params).1, m_op := Operation.LogicalGt }))
        ∧ CreateTester E "greaterthan" params
          = Outcome.returned (some (Tester.comparator
              { m_args := (E.ParseCallParams [⟨"b", true⟩] params).1, m_op := Operation.LogicalGt }))
        ∧ CreateTester E "le" params
          = Outcome.returned (some (Tester.comparator
              { m_args := (E.ParseCallParams [⟨"b", true⟩] params).1, m_op := Operation.LogicalLe }))
        ∧ CreateTester E "<=" params
          = Outcome.returned (some (Tester.comparator
              { m_args := (E.ParseCallParams [⟨"b", true⟩] params).1, m_op := Operation.LogicalLe }))
        ∧ CreateTester E "lt" params
          = Outcome.returned (some (Tester.comparator
              { m_args := (E.ParseCallParams [⟨"b", true⟩] params).1, m_op := Operation.LogicalLt }))
        ∧ CreateTester E "<" params
          = Outcome.returned (some (Tester.comparator
              { m_args := (E.ParseCallParams [⟨"b", true⟩] params).1, m_op := Operation.LogicalLt }))
        ∧ CreateTester E "lessthan" params
          = Outcome.returned (some (Tester.comparator
              { m_args := (E.ParseCallParams [⟨"b", true⟩] params).1, m_op := Operation.LogicalLt }))
        ∧ CreateTester E "ne" params
          = Outcome.returned (some (Tester.comparator
              { m_args := (E.ParseCallParams [⟨"b", true⟩] params).1, m_op := Operation.LogicalNe }))
        ∧ CreateTester E "!=" params
          = Outcome.returned (some (Tester.comparator
              { m_args := (E.ParseCallParams [⟨"b", true⟩] params).1, m_op := Operation.LogicalNe }))) := by
  refine ⟨rfl, ?_, ?_, fun params => ?_⟩
  · have h : (s_testers E).map Prod.fst =
        ["defined", "startsWith", "eq", "==", "equalto", "even", "ge", ">=", "gt", ">",
        "greaterthan", "in", "iterable", "le", "<=", "lower", "lt", "<", "lessthan",
        "mapping", "ne", "!=", "number", "odd", "sequence", "string", "undefined", "upper"] := rfl
    rw [h]
    decide
  · intro name
    unfold s_testers_find
    rw [lookup_isSome_iff_mem_keys]
    have h : (s_testers E).map Prod.fst =
        ["defined", "startsWith", "eq", "==", "equalto", "even", "ge", ">=", "gt", ">",
        "greaterthan", "in", "iterable", "le", "<=", "lower", "lt", "<", "lessthan",
        "mapping", "ne", "!=", "number", "odd", "sequence", "string", "undefined", "upper"] := rfl
    rw [h]
    exact List.Perm.mem_iff (by decide)
  · exact ⟨rfl, rfl, rfl, rfl, rfl, rfl, rfl, rfl, rfl, rfl, rfl, rfl, rfl, rfl,
      rfl, rfl, rfl, rfl, rfl, rfl, rfl, rfl, rfl, rfl, rfl, rfl, rfl, rfl⟩

/-! ## What a comparator computes -/

/-- A comparator whose argument `b` is bound to `e` applies the binary operation
to the base value, on the left, and the value of `e`, on the right, with its
operator, and converts the result to a boolean. -/
theorem Comparator_Test_of_bound {Ctx : Type} (E : Collaborators Ctx)
    (params : CallParams Ctx) (op : Operation) (e : ExpressionEvaluator Ctx)
    (base : InternalValue) (ctx : Ctx)
    (hb : (E.ParseCallParams [⟨"b", true⟩] params).1 "b" = some e) :
    Comparator.Test E (Comparator.ctor E params op) base ctx
      = E.ConvertToBool (E.BinaryMathOperation base (e.Evaluate ctx) op) := by
  unfold Comparator.Test Comparator.ctor FunctionBase.GetArgumentValue FunctionBase.ParseParams
  simp only [hb]

/-- Claim C9. When the binding helper binds the argument `b` to the expression
`e`, the tester created under a comparator name returns, for every base value
and context, the to-bool conversion of the binary operation applied to the base
value as left operand and the value of `e` in the context as right operand,
with the operator the name denotes. With integer ordering as the binary
operation, base 5 with `b = 3` gives true under `ge` and false under `lt`, and
base 3 with `b = 5` gives false under `ge`. -/
theorem comparator_applies_bound_operator {Ctx : Type} (E : Collaborators Ctx)
    (params : CallParams Ctx) (e : ExpressionEvaluator Ctx)
    (base : InternalValue) (ctx : Ctx)
    (hb : (E.ParseCallParams [⟨"b", true⟩] params).1 "b" = some e) :
    List.Forall
        (fun entry : String × Operation =>
          createAndTest E entry.1 params base ctx
            = Outcome.returned
                (E.ConvertToBool (E.BinaryMathOperation base (e.Evaluate ctx) entry.2)))
        [ ("eq", Operation.LogicalEq), ("==", Operation.LogicalEq),
          ("equalto", Operation.LogicalEq), ("ge", Operation.LogicalGe),
          (">=", Operation.LogicalGe), ("gt", Operation.LogicalGt),
          (">", Operation.LogicalGt), ("greaterthan", Operation.LogicalGt),
          ("le", Operation.LogicalLe), ("<=", Operation.LogicalLe),
          ("lt", Operation.LogicalLt), ("<", Operation.LogicalLt),
          ("lessthan", Operation.LogicalLt), ("ne", Operation.LogicalNe),
          ("!=", Operation.LogicalNe) ]
    ∧ createAndTest (refCollaborators Unit) "ge"
        (positionalParams [constantExpr (InternalValue.int64 3)]) (InternalValue.int64 5) ()
        = Outcome.returned true
    ∧ createAndTest (refCollaborators Unit) "lt"
        (positionalParams [constantExpr (InternalValue.int64 3)]) (InternalValue.int64 5) ()
        = Outcome.returned false
    ∧ createAndTest (refCollaborators Unit) "ge"
        (positionalParams [constantExpr (InternalValue.int64 5)]) (InternalValue.int64 3) ()
        = Outcome.returned false := by
  refine ⟨?_, by decide, by decide, by decide⟩
  have h := fun op => congrArg Outcome.returned (Comparator_Test_of_bound E params op e base ctx hb)
  simp only [List.Forall]
  exact ⟨h _, h _, h _, h _, h _, h _, h _, h _, h _, h _, h _, h _, h _, h _, h _⟩

/-- Claim C9, on the scenario of the specification: the argument list holding
the integer 3 binds `b`, and the tester created as `ge` on base 5 returns the
to-bool conversion of the comparison of 5 with 3, which is true. -/
theorem comparator_applies_bound_operator_witness :
    ((refCollaborators Unit).ParseCallParams [⟨"b", true⟩]
        (positionalParams [constantExpr (InternalValue.int64 3)])).1 "b"
      = some (constantExpr (InternalValue.int64 3))
    ∧ createAndTest (refCollaborators Unit) "ge"
        (positionalParams [constantExpr (InternalValue.int64 3)]) (InternalValue.int64 5) ()
        = Outcome.returned
            ((refCollaborators Unit).ConvertToBool
              ((refCollaborators Unit).BinaryMathOperation (InternalValue.int64 5)
                (InternalValue.int64 3) Operation.LogicalGe))
    ∧ (refCollaborators Unit).ConvertToBool
        ((refCollaborators Unit).BinaryMathOperation (InternalValue.int64 5)
          (InternalValue.int64 3) Operation.LogicalGe) = true :=
  ⟨rfl,
    (comparator_applies_bound_operator (refCollaborators Unit)
      (positionalParams [constantExpr (InternalValue.int64 3)])
      (constantExpr (InternalValue.int64 3)) (InternalValue.int64 5) () rfl).1.2.2.2.1,
    by decide⟩

/-! ## The modes without a test -/

/-- Claim C10. For every value, argument list and context, the testers
registered as `even`, `odd`, `in`, `lower` and `upper` return false. -/
theorem unimplemented_modes_return_false {Ctx : Type} (E : Collaborators Ctx)
    (params : CallParams Ctx) (v : InternalValue) (ctx : Ctx) :
    createAndTest E "even" params v ctx = Outcome.returned false
    ∧ createAndTest E "odd" params v ctx = Outcome.returned false
    ∧ createAndTest E "in" params v ctx = Outcome.returned false
    ∧ createAndTest E "lower" params v ctx = Outcome.returned false
    ∧ createAndTest E "upper" params v ctx = Outcome.returned false :=
  ⟨rfl, rfl, rfl, rfl, rfl⟩

/-! ## Shared lemmas on the prefix test and on the kind testers -/

/-- When the binding helper binds `str` to `e`, the tester created as
`startsWith` returns the test `baseStr.find(str) == 0` on the two string forms. -/
theorem createAndTest_startsWith_of_bound {Ctx : Type} (E : Collaborators Ctx)
    (params : CallParams Ctx) (e : ExpressionEvaluator Ctx)
    (base : InternalValue) (ctx : Ctx)
    (hstr : (E.ParseCallParams [⟨"str", true⟩] params).1 "str" = some e) :
    createAndTest E "startsWith" params base ctx
      = Outcome.returned (string_find (E.AsString base) (E.AsString (e.Evaluate ctx)) == 0) := by
  show StartsWith.Test E (StartsWith.ctor E params) base ctx = _
  unfold StartsWith.Test StartsWith.ctor
  simp only [hstr]

/-- The empty needle is found at offset zero of every string. -/
theorem string_find_nil (s : CppString) : (string_find s [] == 0) = true := by
  rw [string_find_beq_zero]
  simp

/-- A needle longer than the searched string is not found at offset zero. -/
theorem string_find_longer (s str : CppString) (h : s.length < str.length) :
    (string_find s str == 0) = false := by
  rw [string_find_beq_zero]
  simp only [decide_eq_false_iff_not, not_and]
  intro hle
  omega

/-- The seven kind testers of the registry, each as the comparison that
`ValueTester::Test` makes on the kind of the base value. -/
theorem createAndTest_kind_names {Ctx : Type} (E : Collaborators Ctx)
    (params : CallParams Ctx) (v : InternalValue) (ctx : Ctx) :
    createAndTest E "defined" params v ctx
        = Outcome.returned (ValueKindGetter.apply E v != ValueKind.Empty)
    ∧ createAndTest E "undefined" params v ctx
        = Outcome.returned (ValueKindGetter.apply E v == ValueKind.Empty)
    ∧ createAndTest E "string" params v ctx
        = Outcome.returned (ValueKindGetter.apply E v == ValueKind.String)
    ∧ createAndTest E "number" params v ctx
        = Outcome.returned (ValueKindGetter.apply E v == ValueKind.Integer
            || ValueKindGetter.apply E v == ValueKind.Double)
    ∧ createAndTest E "iterable" params v ctx
        = Outcome.returned (ValueKindGetter.apply E v == ValueKind.List
            || ValueKindGetter.apply E v == ValueKind.Map)
    ∧ createAndTest E "mapping" params v ctx
        = Outcome.returned (ValueKindGetter.apply E v == ValueKind.KVPair
            || ValueKindGetter.apply E v == ValueKind.Map)
    ∧ createAndTest E "sequence" params v ctx
        = Outcome.returned (ValueKindGetter.apply E v == ValueKind.List) :=
  ⟨rfl, rfl, rfl, rfl, rfl, rfl, rfl⟩

/-- The method `ValueTester::Test` reads nothing of the base value but its kind,
and nothing of the context. -/
theorem ValueTester_Test_congr {Ctx : Type} (E : Collaborators Ctx) (t : ValueTester)
    (v w : InternalValue) (ctx ctx2 : Ctx)
    (hkind : ValueKindGetter.apply E v = ValueKindGetter.apply E w) :
    ValueTester.Test E t v ctx = ValueTester.Test E t w ctx2 := by
  unfold ValueTester.Test
  rw [hkind]

/-! ## Edge cases of the prefix tester -/

/-- Claim C11. When the binding helper binds `str` to `e`, the tester registered
as `startsWith` returns true whenever the needle, the string form of the value
of `e`, is empty, whatever the base string is, the empty one included, and
returns false whenever the needle is longer than the base string. -/
theorem startsWith_edge_cases {Ctx : Type} (E : Collaborators Ctx)
    (params : CallParams Ctx) (e : ExpressionEvaluator Ctx)
    (base : InternalValue) (ctx : Ctx)
    (hstr : (E.ParseCallParams [⟨"str", true⟩] params).1 "str" = some e) :
    (E.AsString (e.Evaluate ctx) = [] →
        createAndTest E "startsWith" params base ctx = Outcome.returned true)
    ∧ ((E.AsString base).length < (E.AsString (e.Evaluate ctx)).length →
        createAndTest E "startsWith" params base ctx = Outcome.returned false) := by
  rw [createAndTest_startsWith_of_bound E params e base ctx hstr]
  constructor
  · intro hnil
    rw [hnil, string_find_nil]
  · intro hlong
    rw [string_find_longer _ _ hlong]

/-- Claim C11, on concrete strings: the empty needle on the empty base gives
true, the empty needle on "hello world" gives true, and the needle "abc" on
the base "ab" gives false. -/
theorem startsWith_edge_cases_witness :
    ((refCollaborators Unit).ParseCallParams [⟨"str", true⟩]
        (positionalParams [constantExpr (InternalValue.string [])])).1 "str"
      = some (constantExpr (InternalValue.string []))
    ∧ createAndTest (refCollaborators Unit) "startsWith"
        (positionalParams [constantExpr (InternalValue.string [])])
        (InternalValue.string []) () = Outcome.returned true
    ∧ createAndTest (refCollaborators Unit) "startsWith"
        (positionalParams [constantExpr (InternalValue.string [])])
        (InternalValue.string "hello world".toList) () = Outcome.returned true
    ∧ createAndTest (refCollaborators Unit) "startsWith"
        (positionalParams [constantExpr (InternalValue.string "abc".toList)])
        (InternalValue.string "ab".toList) () = Outcome.returned false :=
  ⟨rfl,
    (startsWith_edge_cases (refCollaborators Unit)
      (positionalParams [constantExpr (InternalValue.string [])])
      (constantExpr (InternalValue.string [])) (InternalValue.string []) () rfl).1 rfl,
    (startsWith_edge_cases (refCollaborators Unit)
      (positionalParams [constantExpr (InternalValue.string [])])
      (constantExpr (InternalValue.string []))
      (InternalValue.string "hello world".toList) () rfl).1 rfl,
    (startsWith_edge_cases (refCollaborators Unit)
      (positionalParams [constantExpr (InternalValue.string "abc".toList)])
      (constantExpr (InternalValue.string "abc".toList))
      (InternalValue.string "ab".toList) () rfl).2 (by decide)⟩

/-! ## Relations between the kind testers -/

/-- Claim C12. For every value, whatever kind the classifier gives it, the
testers registered as `defined` and `undefined` both return, and `undefined`
returns the negation of what `defined` returns, so exactly one of them is
true; this holds in particular for a Callable value, for which
`ValueKindGetter` declares no operator. -/
theorem undefined_negates_defined {Ctx : Type} (E : Collaborators Ctx)
    (params : CallParams Ctx) (v : InternalValue) (ctx : Ctx) :
    (∃ b : Bool, createAndTest E "defined" params v ctx = Outcome.returned b
        ∧ createAndTest E "undefined" params v ctx = Outcome.returned (!b))
    ∧ (∀ c : Callable, ∃ b : Bool,
        createAndTest E "defined" params (InternalValue.Callable c) ctx = Outcome.returned b
        ∧ createAndTest E "undefined" params (InternalValue.Callable c) ctx
            = Outcome.returned (!b)) := by
  have key : ∀ w : InternalValue, ∃ b : Bool,
      createAndTest E "defined" params w ctx = Outcome.returned b
      ∧ createAndTest E "undefined" params w ctx = Outcome.returned (!b) := by
    intro w
    obtain ⟨hd, hu, -⟩ := createAndTest_kind_names E params w ctx
    refine ⟨_, hd, ?_⟩
    rw [hu]
    generalize ValueKindGetter.apply E w = k
    cases k <;> rfl
  exact ⟨key v, fun c => key (InternalValue.Callable c)⟩

/-- Claim C13. For every value, the results `s` of `string`, `n` of `number`
and `i or m` of `iterable` or `mapping` are pairwise exclusive, and none of
`string`, `number`, `iterable`, `mapping`, `sequence` is true unless `defined`
is true; on the Empty value and on a boolean all five are false. -/
theorem kind_testers_partition {Ctx : Type} (E : Collaborators Ctx)
    (params : CallParams Ctx) (v : InternalValue) (ctx : Ctx) :
    (∃ d s n i m q : Bool,
        createAndTest E "defined" params v ctx = Outcome.returned d
        ∧ createAndTest E "string" params v ctx = Outcome.returned s
        ∧ createAndTest E "number" params v ctx = Outcome.returned n
        ∧ createAndTest E "iterable" params v ctx = Outcome.returned i
        ∧ createAndTest E "mapping" params v ctx = Outcome.returned m
        ∧ createAndTest E "sequence" params v ctx = Outcome.returned q
        ∧ (s && n) = false
        ∧ (s && (i || m)) = false
        ∧ (n && (i || m)) = false
        ∧ ((s || n || i || m || q) && !d) = false)
    ∧ (∀ w : InternalValue, (w = InternalValue.EmptyValue ∨ ∃ b, w = InternalValue.bool b) →
        createAndTest E "string" params w ctx = Outcome.returned false
        ∧ createAndTest E "number" params w ctx = Outcome.returned false
        ∧ createAndTest E "iterable" params w ctx = Outcome.returned false
        ∧ createAndTest E "mapping" params w ctx = Outcome.returned false
        ∧ createAndTest E "sequence" params w ctx = Outcome.returned false) := by
  constructor
  · obtain ⟨hd, -, hs, hn, hi, hm, hq⟩ := createAndTest_kind_names E params v ctx
    refine ⟨_, _, _, _, _, _, hd, hs, hn, hi, hm, hq, ?_, ?_, ?_, ?_⟩ <;>
      (generalize ValueKindGetter.apply E v = k; cases k <;> rfl)
  · rintro w (rfl | ⟨b, rfl⟩)
    · exact ⟨rfl, rfl, rfl, rfl, rfl⟩
    · exact ⟨rfl, rfl, rfl, rfl, rfl⟩

/-- Claim C13, on the Empty value and on the boolean `true`, with the
reference collaborators. -/
theorem kind_testers_partition_witness :
    (createAndTest (refCollaborators Unit) "string" (positionalParams [])
        InternalValue.EmptyValue () = Outcome.returned false
      ∧ createAndTest (refCollaborators Unit) "number" (positionalParams [])
        InternalValue.EmptyValue () = Outcome.returned false
      ∧ createAndTest (refCollaborators Unit) "iterable" (positionalParams [])
        InternalValue.EmptyValue () = Outcome.returned false
      ∧ createAndTest (refCollaborators Unit) "mapping" (positionalParams [])
        InternalValue.EmptyValue () = Outcome.returned false
      ∧ createAndTest (refCollaborators Unit) "sequence" (positionalParams [])
        InternalValue.EmptyValue () = Outcome.returned false)
    ∧ (createAndTest (refCollaborators Unit) "string" (positionalParams [])
        (InternalValue.bool true) () = Outcome.returned false
      ∧ createAndTest (refCollaborators Unit) "number" (positionalParams [])
        (InternalValue.bool true) () = Outcome.returned false
      ∧ createAndTest (refCollaborators Unit) "iterable" (positionalParams [])
        (InternalValue.bool true) () = Outcome.returned false
      ∧ createAndTest (refCollaborators Unit) "mapping" (positionalParams [])
        (InternalValue.bool true) () = Outcome.returned false
      ∧ createAndTest (refCollaborators Unit) "sequence" (positionalParams [])
        (InternalValue.bool true) () = Outcome.returned false) :=
  ⟨(kind_testers_partition (refCollaborators Unit) (positionalParams [])
      InternalValue.EmptyValue ()).2 InternalValue.EmptyValue (Or.inl rfl),
    (kind_testers_partition (refCollaborators Unit) (positionalParams [])
      InternalValue.EmptyValue ()).2 (InternalValue.bool true) (Or.inr ⟨true, rfl⟩)⟩

/-- Claim C14. For every value, `sequence` implies `iterable`; the value is
`iterable` but not `sequence` exactly when it is both `iterable` and `mapping`,
which is exactly when its kind is Map; and a KeyValuePair is `mapping` but not
`iterable`. -/
theorem sequence_iterable_mapping_relation {Ctx : Type} (E : Collaborators Ctx)
    (params : CallParams Ctx) (v : InternalValue) (ctx : Ctx) :
    (∃ q i m : Bool,
        createAndTest E "sequence" params v ctx = Outcome.returned q
        ∧ createAndTest E "iterable" params v ctx = Outcome.returned i
        ∧ createAndTest E "mapping" params v ctx = Outcome.returned m
        ∧ (q && !i) = false
        ∧ (i && !q) = (i && m)
        ∧ (i && m) = decide (ValueKindGetter.apply E v = ValueKind.Map))
    ∧ (∀ (key : CppString) (value : InternalValue),
        createAndTest E "mapping" params (InternalValue.KeyValuePair key value) ctx
          = Outcome.returned true
        ∧ createAndTest E "iterable" params (InternalValue.KeyValuePair key value) ctx
          = Outcome.returned false) := by
  constructor
  · obtain ⟨-, -, -, -, hi, hm, hq⟩ := createAndTest_kind_names E params v ctx
    refine ⟨_, _, _, hq, hi, hm, ?_, ?_, ?_⟩ <;>
      (generalize ValueKindGetter.apply E v = k; cases k <;> rfl)
  · intro key value
    exact ⟨rfl, rfl⟩

/-! ## What a kind tester depends on -/

/-- Claim C15. The constructor of a kind tester stores the mode and nothing of
the parameter list, and never fails; for two base values of the same kind, any
two parameter lists and any two contexts, two testers of the same mode return
the same boolean, and so do the testers created under each of the twelve
registered kind and property names. -/
theorem kind_tester_depends_on_mode_and_kind {Ctx : Type} (E : Collaborators Ctx)
    (mode : Mode) (params params2 : CallParams Ctx) (v w : InternalValue)
    (ctx ctx2 : Ctx)
    (hkind : ValueKindGetter.apply E v = ValueKindGetter.apply E w) :
    ValueTester.ctor params mode = { m_mode := mode }
    ∧ (∃ b : Bool,
        Tester.Test E (Tester.valueTester (ValueTester.ctor params mode)) v ctx
          = Outcome.returned b
        ∧ Tester.Test E (Tester.valueTester (ValueTester.ctor params2 mode)) w ctx2
          = Outcome.returned b)
    ∧ List.Forall
        (fun name : String =>
          createAndTest E name params v ctx = createAndTest E name params2 w ctx2)
        ["defined", "even", "in", "iterable", "lower", "mapping", "number",
          "odd", "sequence", "string", "undefined", "upper"] := by
  have h := fun t : ValueTester =>
    congrArg Outcome.returned (ValueTester_Test_congr E t v w ctx ctx2 hkind)
  refine ⟨ValueTester_ctor_eq params mode, ?_, ?_⟩
  · refine ⟨ValueTester.Test E { m_mode := mode } v ctx, ?_, ?_⟩
    · rw [ValueTester_ctor_eq]
      rfl
    · rw [ValueTester_ctor_eq]
      exact (h { m_mode := mode }).symm
  · simp only [List.Forall]
    exact ⟨h { m_mode := Mode.IsDefinedMode }, h { m_mode := Mode.IsEvenMode },
      h { m_mode := Mode.IsInMode }, h { m_mode := Mode.IsIterableMode },
      h { m_mode := Mode.IsLowerMode }, h { m_mode := Mode.IsMappingMode },
      h { m_mode := Mode.IsNumberMode }, h { m_mode := Mode.IsOddMode },
      h { m_mode := Mode.IsSequenceMode }, h { m_mode := Mode.IsStringMode },
      h { m_mode := Mode.IsUndefinedMode }, h { m_mode := Mode.IsUpperMode }⟩

/-- Claim C15, on two integers: 1 and 2 have the same kind, and the `number`
testers built from an empty parameter list and from a list holding a string
return the same boolean on them. -/
theorem kind_tester_depends_on_mode_and_kind_witness :
    ValueKindGetter.apply (refCollaborators Unit) (InternalValue.int64 1)
      = ValueKindGetter.apply (refCollaborators Unit) (InternalValue.int64 2)
    ∧ (∃ b : Bool,
        Tester.Test (refCollaborators Unit)
          (Tester.valueTester (ValueTester.ctor (positionalParams [] : CallParams Unit) Mode.IsNumberMode))
          (InternalValue.int64 1) () = Outcome.returned b
        ∧ Tester.Test (refCollaborators Unit)
          (Tester.valueTester (ValueTester.ctor
            (positionalParams [constantExpr (InternalValue.string "x".toList)] : CallParams Unit)
            Mode.IsNumberMode))
          (InternalValue.int64 2) () = Outcome.returned b) :=
  ⟨rfl,
    (kind_tester_depends_on_mode_and_kind (refCollaborators Unit) Mode.IsNumberMode
      (positionalParams [])
      (positionalParams [constantExpr (InternalValue.string "x".toList)])
      (InternalValue.int64 1) (InternalValue.int64 2) () () rfl).2.1⟩

/-! ## The prefix test as an order on strings -/

/-- The test `baseStr.find(str) == 0` is true exactly when `str` is the initial
segment of `baseStr` of its own length. -/
theorem string_find_beq_zero_iff (s str : CppString) :
    (string_find s str == 0) = true ↔ str.length ≤ s.length ∧ s.take str.length = str := by
  rw [string_find_beq_zero, decide_eq_true_eq]

/-- Claim C16. The method `StartsWith::Test` returns the test
`baseStr.find(str) == 0` on the string forms of the base value and of the
needle, and that test, read as the relation "A starts with B" on strings, is
reflexive, transitive and antisymmetric. -/
theorem startsWith_relation_partial_order {Ctx : Type} (E : Collaborators Ctx)
    (e : ExpressionEvaluator Ctx) (base : InternalValue) (ctx : Ctx)
    (A B C : CppString) :
    StartsWith.Test E { m_stringEval := some e } base ctx
        = Outcome.returned (string_find (E.AsString base) (E.AsString (e.Evaluate ctx)) == 0)
    ∧ (string_find A A == 0) = true
    ∧ ((string_find A B == 0) = true → (string_find B C == 0) = true →
        (string_find A C == 0) = true)
    ∧ ((string_find A B == 0) = true → (string_find B A == 0) = true → A = B) := by
  refine ⟨rfl, ?_, ?_, ?_⟩
  · rw [string_find_beq_zero_iff]
    exact ⟨Nat.le_refl _, List.take_length A⟩
  · intro hAB hBC
    rw [string_find_beq_zero_iff] at hAB hBC ⊢
    obtain ⟨hlenB, htakeB⟩ := hAB
    obtain ⟨hlenC, htakeC⟩ := hBC
    refine ⟨Nat.le_trans hlenC hlenB, ?_⟩
    have h : (A.take B.length).take C.length = A.take C.length := by
      rw [List.take_take, Nat.min_eq_left hlenC]
    rw [← h, htakeB, htakeC]
  · intro hAB hBA
    rw [string_find_beq_zero_iff] at hAB hBA
    obtain ⟨-, htakeB⟩ := hAB
    obtain ⟨hlenA, -⟩ := hBA
    rw [List.take_of_length_le hlenA] at htakeB
    exact htakeB

/-- Claim C16, on concrete strings: "abc" starts with "ab" and "ab" starts with
"a", hence "abc" starts with "a"; and two strings that start with each other,
here "ab" and "ab", are equal. -/
theorem startsWith_relation_partial_order_witness :
    (string_find "abc".toList "ab".toList == 0) = true
    ∧ (string_find "ab".toList "a".toList == 0) = true
    ∧ (string_find "abc".toList "a".toList == 0) = true
    ∧ (string_find "ab".toList "ab".toList == 0) = true
    ∧ "ab".toList = "ab".toList :=
  ⟨by decide, by decide,
    (startsWith_relation_partial_order (refCollaborators Unit)
      (constantExpr (InternalValue.string "ab".toList)) (InternalValue.string "abc".toList) ()
      "abc".toList "ab".toList "a".toList).2.2.1 (by decide) (by decide),
    (startsWith_relation_partial_order (refCollaborators Unit)
      (constantExpr (InternalValue.string "ab".toList)) (InternalValue.string "abc".toList) ()
      "ab".toList "ab".toList "a".toList).2.1,
    (startsWith_relation_partial_order (refCollaborators Unit)
      (constantExpr (InternalValue.string "ab".toList)) (InternalValue.string "abc".toList) ()
      "ab".toList "ab".toList "a".toList).2.2.2 (by decide) (by decide)⟩

end jinja2
